import Mathlib

/-!
Shallow embedding of the `aurelius.functional` DCF and risk-analytics modules
(`src/aurelius/functional/dcf.py`, `src/aurelius/functional/risk.py`).

Numbers are modelled by exact rationals (`ℚ`); Python float arithmetic on the
values appearing in these modules is real arithmetic up to representation
error, which is out of scope here.  Optional arguments and possibly-missing
data fields are modelled by `Option ℚ`.  Python functions that catch
exceptions and return an `"error"` dictionary are modelled by
`Except String`.  Irrational primitives (`**` with fractional exponent,
`np.sqrt`) are passed in as explicit function parameters, so every
definition stays executable.
-/

namespace Aurelius

/-- Python's `x or d` defaulting idiom applied to an optional float argument:
`None` and `0.0` are both falsy, so either of them selects the default `d`. -/
def pyOr (x : Option ℚ) (d : ℚ) : ℚ :=
  match x with
  | none => d
  | some v => if v = 0 then d else v

/-- Python's `round` to an integer, on exact rationals: round half to even. -/
def pyRoundInt (y : ℚ) : ℤ :=
  let f := Int.floor y
  let r := y - f
  if r < 1/2 then f
  else if 1/2 < r then f + 1
  else if f % 2 = 0 then f else f + 1

/-- Python's `round(x, d)` on exact rationals (round half to even). -/
def pyRoundTo (d : ℕ) (x : ℚ) : ℚ :=
  (pyRoundInt (x * 10 ^ d) : ℚ) / 10 ^ d

/-- `round(x, 2)`. -/
def pyRound2 (x : ℚ) : ℚ := pyRoundTo 2 x

/-- `DCFModel.RISK_FREE_RATE = 0.045`. -/
def RISK_FREE_RATE : ℚ := 45/1000

/-- `DCFModel.MARKET_RISK_PREMIUM = 0.055`. -/
def MARKET_RISK_PREMIUM : ℚ := 55/1000

/-- `DCFModel.DEFAULT_TERMINAL_GROWTH = 0.025`. -/
def DEFAULT_TERMINAL_GROWTH : ℚ := 25/1000

/-- `DCFModel.DEFAULT_TAX_RATE = 0.21`. -/
def DEFAULT_TAX_RATE : ℚ := 21/100

/-- Market data consumed by `DCFModel.calculate_wacc`: `info.get("beta", 1.0)`,
`info.get("marketCap", 0)`, `info.get("totalDebt", 0)` and the
`'Interest Expense'` row of the income statement (`none` = key absent or
null, which the source collapses with `or` / `if ... in ... else 0`). -/
structure WaccInputs where
  beta : Option ℚ
  marketCap : Option ℚ
  totalDebt : Option ℚ
  interestExpense : Option ℚ
deriving DecidableEq, Inhabited

/-- The quantities `DCFModel.calculate_wacc` computes and returns.  Fields
hold the underlying decimal values; the source additionally multiplies by
100 and rounds them for display in its result dictionary, which does not
change any of them as quantities.  `wacc_decimal` is the `round(wacc, 4)`
value the source stores under `"wacc_decimal"` and later feeds into
`calculate_dcf`. -/
structure WaccResult where
  cost_of_equity : ℚ
  cost_of_debt : ℚ
  beta : ℚ
  risk_free_rate : ℚ
  market_risk_premium : ℚ
  tax_rate : ℚ
  equity_weight : ℚ
  debt_weight : ℚ
  market_cap : ℚ
  total_debt : ℚ
  wacc : ℚ
  wacc_decimal : ℚ
deriving DecidableEq, Inhabited

/-- The interest-expense extraction of `calculate_wacc` (dcf.py lines
194-197): `abs(float(income_stmt.loc['Interest Expense'].iloc[0] or 0))`
when the row is present, `0` when it is not. -/
def waccInterestExpense (inp : WaccInputs) : ℚ :=
  match inp.interestExpense with
  | none => 0
  | some v => |v|

/-- `DCFModel.calculate_wacc` (dcf.py lines 142-235), given the fetched
market data.  Mirrors the source line by line:
`rf = risk_free_rate or RISK_FREE_RATE`, `beta = info.get("beta", 1.0) or 1.0`,
`interest_expense = abs(float(... or 0))` when the row is present else `0`,
`cost_of_debt = interest_expense / total_debt` when
`total_debt > 0 and interest_expense > 0` else `rf + 0.02`,
weights `market_cap / total_value` and `total_debt / total_value` when
`total_value > 0` else `(1, 0)`, and
`wacc = equity_weight * cost_of_equity + debt_weight * cost_of_debt * (1 - tax)`. -/
def calculate_wacc (risk_free_rate market_risk_premium tax_rate : Option ℚ)
    (inp : WaccInputs) : WaccResult :=
  let rf := pyOr risk_free_rate RISK_FREE_RATE
  let mrp := pyOr market_risk_premium MARKET_RISK_PREMIUM
  let tax := pyOr tax_rate DEFAULT_TAX_RATE
  let beta := pyOr inp.beta 1
  let cost_of_equity := rf + beta * mrp
  let market_cap := pyOr inp.marketCap 0
  let total_debt := pyOr inp.totalDebt 0
  let interest_expense := waccInterestExpense inp
  let cost_of_debt :=
    if total_debt > 0 ∧ interest_expense > 0 then interest_expense / total_debt
    else rf + 2/100
  let total_value := market_cap + total_debt
  let equity_weight := if total_value > 0 then market_cap / total_value else 1
  let debt_weight := if total_value > 0 then total_debt / total_value else 0
  let wacc := equity_weight * cost_of_equity + debt_weight * cost_of_debt * (1 - tax)
  { cost_of_equity := cost_of_equity
    cost_of_debt := cost_of_debt
    beta := beta
    risk_free_rate := rf
    market_risk_premium := mrp
    tax_rate := tax
    equity_weight := equity_weight
    debt_weight := debt_weight
    market_cap := market_cap
    total_debt := total_debt
    wacc := wacc
    wacc_decimal := pyRoundTo 4 wacc }

/-- The valuation block `DCFModel.calculate_dcf` computes (dcf.py lines
382-458).  Fields hold the underlying values; the source additionally
divides the large ones by `1e9` and rounds everything for display in the
returned dictionary. -/
structure DCFValuation where
  wacc : ℚ
  terminal_growth : ℚ
  pv_free_cash_flow : List ℚ
  pv_of_fcfs : ℚ
  terminal_value : ℚ
  pv_of_terminal_value : ℚ
  enterprise_value : ℚ
  net_debt : ℚ
  equity_value : ℚ
  shares_outstanding : ℚ
  intrinsic_value_per_share : ℚ
  current_price : ℚ
  upside_percent : ℚ
  valuation_status : String
deriving DecidableEq, Inhabited

/-- The discounting loop `for i, fcf in enumerate(...): pv = fcf / (1+wacc)**(i+1)`
(dcf.py lines 386-390 and 509-512): present values of the cash flows,
starting at year `i + 1`. -/
def pvList (wacc : ℚ) : ℕ → List ℚ → List ℚ
  | _, [] => []
  | i, fcf :: rest => fcf / (1 + wacc) ^ (i + 1) :: pvList wacc (i + 1) rest

/-- The valuation core of `DCFModel.calculate_dcf` (dcf.py lines 360-459),
after the three data fetches have succeeded.  Inputs: `wacc_decimal` from
`calculate_wacc`, the caller's `wacc_override` and `terminal_growth_rate`,
the projected `free_cash_flow` list from `project_financials`, and the
`total_debt`, `total_cash`, `shares_outstanding`, `current_price` fields of
the historical record.  The whole body runs inside `try/except`, so the
Python exceptions the arithmetic can raise come back as `"error"`
dictionaries: `ZeroDivisionError` from discounting when `1 + wacc = 0`,
`IndexError` from `[-1]` on an empty projection list, and
`ZeroDivisionError` from the terminal value when `wacc = terminal_growth`.
There is no check that `wacc > terminal_growth`. -/
def calculate_dcf_core (wacc_decimal : ℚ) (wacc_override : Option ℚ)
    (free_cash_flow : List ℚ) (total_debt total_cash shares_outstanding current_price : ℚ)
    (terminal_growth_rate : Option ℚ) (projection_years : ℕ) :
    Except String DCFValuation :=
  let wacc := pyOr wacc_override wacc_decimal
  let terminal_growth := pyOr terminal_growth_rate DEFAULT_TERMINAL_GROWTH
  if free_cash_flow ≠ [] ∧ 1 + wacc = 0 then
    Except.error "float division by zero"
  else
    match free_cash_flow.getLast? with
    | none => Except.error "list index out of range"
    | some final_fcf =>
      if wacc - terminal_growth = 0 then Except.error "float division by zero"
      else
        let pv_fcfs := (pvList wacc 0 free_cash_flow).map (pyRoundTo 0)
        let total_pv_fcf := (pvList wacc 0 free_cash_flow).sum
        let terminal_value := final_fcf * (1 + terminal_growth) / (wacc - terminal_growth)
        let pv_terminal := terminal_value / (1 + wacc) ^ projection_years
        let enterprise_value := total_pv_fcf + pv_terminal
        let net_debt := total_debt - total_cash
        let equity_value := enterprise_value - net_debt
        let intrinsic_value_per_share :=
          if shares_outstanding > 0 then equity_value / shares_outstanding else 0
        let upside :=
          if current_price > 0 then
            (intrinsic_value_per_share - current_price) / current_price * 100
          else 0
        Except.ok
          { wacc := wacc
            terminal_growth := terminal_growth
            pv_free_cash_flow := pv_fcfs
            pv_of_fcfs := total_pv_fcf
            terminal_value := terminal_value
            pv_of_terminal_value := pv_terminal
            enterprise_value := enterprise_value
            net_debt := net_debt
            equity_value := equity_value
            shares_outstanding := shares_outstanding
            intrinsic_value_per_share := intrinsic_value_per_share
            current_price := current_price
            upside_percent := upside
            valuation_status :=
              if upside > 10 then "UNDERVALUED"
              else if upside < -10 then "OVERVALUED"
              else "FAIRLY VALUED" }

/-- Projection of an `Except` DCF result onto its valuation, defaulting on
the error case; used to state properties of successful runs. -/
def dcfVal (e : Except String DCFValuation) : DCFValuation :=
  match e with
  | Except.ok v => v
  | Except.error _ => default

/-- The `"revenue_cagr"` field `DCFModel.get_historical_financials` stores
(dcf.py lines 124-135).  `powf x y` models Python's float `x ** y` (the
exponent `1/(len-1)` is fractional).  The source always assigns the field:
to the rounded CAGR when at least two positive revenue figures exist, and
to `0` otherwise (both the `len(revenue) < 2` and the
`len(positives) < 2` branches). -/
def revenue_cagr_field (powf : ℚ → ℚ → ℚ) (revenue : List ℚ) : ℚ :=
  if 2 ≤ revenue.length then
    let revenues := revenue.filter (fun r => 0 < r)
    if 2 ≤ revenues.length then
      pyRound2 ((powf (revenues.headD 0 / revenues.getLastD 0)
        (1 / ((revenues.length : ℚ) - 1)) - 1) * 100)
    else 0
  else 0

/-- `base_growth = historical.get("revenue_cagr", 10) / 100` in
`DCFModel.project_financials` (dcf.py line 273).  The historical record is
modelled as carrying the `"revenue_cagr"` key as an `Option`; `getD`
mirrors the dictionary `.get` with default `10`. -/
def project_base_growth_of (revenue_cagr : Option ℚ) : ℚ :=
  (revenue_cagr.getD 10) / 100

/-- The base growth `project_financials` actually uses: `get_historical_financials`
always sets `"revenue_cagr"`, so the key is present (`some`). -/
def project_base_growth (powf : ℚ → ℚ → ℚ) (revenue : List ℚ) : ℚ :=
  project_base_growth_of (some (revenue_cagr_field powf revenue))

/-- The default declining revenue-growth schedule of
`DCFModel.project_financials` (dcf.py lines 272-280), used when the caller
supplies no growth rates. -/
def default_revenue_growth_rates (base_growth : ℚ) (years : ℕ) : List ℚ :=
  [min base_growth (30/100),
   min (base_growth * (85/100)) (25/100),
   min (base_growth * (70/100)) (20/100),
   min (base_growth * (55/100)) (15/100),
   min (base_growth * (40/100)) (10/100)].take years

/-- `np.linspace(a, b, steps)`: `steps` evenly spaced samples with both
endpoints included (`[a]` for a single sample, `[]` for zero). -/
def linspace (a b : ℚ) (steps : ℕ) : List ℚ :=
  if steps = 0 then []
  else if steps = 1 then [a]
  else (List.range steps).map (fun i : ℕ => a + (i : ℚ) * (b - a) / ((steps : ℚ) - 1))

/-- One cell of `DCFModel.sensitivity_analysis` (dcf.py lines 505-527):
PV of the cached projected FCFs at this cell's `wacc`, plus the PV of the
terminal value when `wacc > growth` and the sentinel `0` otherwise, less
net debt, per share (`equity / shares if shares else 0`), rounded to two
decimals. -/
def sensitivity_cell (free_cash_flow : List ℚ) (net_debt shares_outstanding : ℚ)
    (wacc growth : ℚ) : ℚ :=
  let pv_fcf := (pvList wacc 0 free_cash_flow).sum
  let final_fcf := free_cash_flow.getLastD 0
  let pv_tv :=
    if growth < wacc then
      final_fcf * (1 + growth) / (wacc - growth) / (1 + wacc) ^ 5
    else 0
  let ev := pv_fcf + pv_tv
  let equity := ev - net_debt
  let per_share := if shares_outstanding ≠ 0 then equity / shares_outstanding else 0
  pyRound2 per_share

/-- The matrix of `DCFModel.sensitivity_analysis` (dcf.py lines 484-528):
`steps × steps` grid over `np.linspace` of the WACC range and the growth
range, every cell computed from the single projection fetched before the
loops. -/
def sensitivity_matrix (free_cash_flow : List ℚ) (net_debt shares_outstanding : ℚ)
    (waccLo waccHi growthLo growthHi : ℚ) (steps : ℕ) : List (List ℚ) :=
  (linspace waccLo waccHi steps).map (fun wacc =>
    (linspace growthLo growthHi steps).map (fun growth =>
      sensitivity_cell free_cash_flow net_debt shares_outstanding wacc growth))

/-- `RiskAnalytics.TRADING_DAYS = 252`. -/
def TRADING_DAYS : ℚ := 252

/-- Arithmetic mean of a series (`np.mean` / `pandas.Series.mean`). -/
def listMean (l : List ℚ) : ℚ := l.sum / l.length

/-- Sample variance with `ddof = 1`, the square of `pandas.Series.std()`.
For fewer than two points pandas yields `NaN`; that case is mapped to `0`,
which leaves every `std > 0` guard in the source with the same outcome
(`NaN > 0` is false in Python). -/
def sampleVariance (l : List ℚ) : ℚ :=
  if 2 ≤ l.length then
    ((l.map (fun x => (x - listMean l) ^ 2)).sum) / ((l.length : ℚ) - 1)
  else 0

/-- `Series.pct_change().dropna()` on a price series: successive relative
changes `p[i+1]/p[i] - 1`, the leading `NaN` dropped. -/
def pctChange (prices : List ℚ) : List ℚ :=
  (prices.zip prices.tail).map (fun p => p.2 / p.1 - 1)

/-- `np.percentile(l, q)` with the default linear interpolation: on the
ascending sort, `h = (n-1) * q/100`, result
`a[⌊h⌋] + (h - ⌊h⌋) * (a[⌊h⌋+1] - a[⌊h⌋])` (the upper neighbour clamped at
the last element). -/
def np_percentile (l : List ℚ) (q : ℚ) : ℚ :=
  let sorted := l.insertionSort (· ≤ ·)
  let n := sorted.length
  let h := ((n : ℚ) - 1) * q / 100
  let i := (Int.floor h).toNat
  let lo := sorted.getD i 0
  let hi := sorted.getD (i + 1) lo
  lo + (h - (i : ℚ)) * (hi - lo)

/-- `var_pct` of `RiskAnalytics.calculate_var` with `method="historical"`
(risk.py line 87): the `(1-confidence)*100` percentile of the returns. -/
def historical_var_pct (returns : List ℚ) (confidence : ℚ) : ℚ :=
  np_percentile returns ((1 - confidence) * 100)

/-- `cvar_pct` of `RiskAnalytics.calculate_var` (risk.py line 102): the mean
of the returns at or below the VaR percentile. -/
def cvar_pct (returns : List ℚ) (confidence : ℚ) : ℚ :=
  listMean (returns.filter (fun r => r ≤ historical_var_pct returns confidence))

/-- The metrics `RiskAnalytics.calculate_var` returns (underlying values;
the source rounds them for display). -/
structure VarResult where
  var_percent : ℚ
  var_dollar_per_share : ℚ
  cvar_percent : ℚ
  cvar_dollar_per_share : ℚ
  current_price : ℚ
deriving DecidableEq, Inhabited

/-- `RiskAnalytics.calculate_var` with `method="historical"` (the default),
risk.py lines 53-119, given the fetched return series and price.  `sqrtHp`
models `np.sqrt(holding_period)` (`1` for the default one-day horizon).
An empty return series is reported as the error `"No data for "` + ticker
before anything is computed. -/
def calculate_var_historical (ticker : String) (returns : List ℚ)
    (current_price confidence sqrtHp : ℚ) : Except String VarResult :=
  if returns = [] then Except.error ("No data for " ++ ticker)
  else
    let var_pct := historical_var_pct returns confidence
    let var_pct_adjusted := var_pct * sqrtHp
    let var_dollar := current_price * |var_pct_adjusted|
    let cvar := cvar_pct returns confidence
    let cvar_dollar := current_price * |cvar| * sqrtHp
    Except.ok
      { var_percent := |var_pct_adjusted| * 100
        var_dollar_per_share := var_dollar
        cvar_percent := |cvar| * sqrtHp * 100
        cvar_dollar_per_share := cvar_dollar
        current_price := current_price }

/-- The metrics `RiskAnalytics.calculate_sharpe_ratio` returns (underlying
values as stored into the result dictionary, rounded to two decimals as in
the source). -/
structure SharpeResult where
  sharpe_ratio : ℚ
  sortino_ratio : ℚ
  annual_return_percent : ℚ
  annual_volatility_percent : ℚ
  risk_free_rate_percent : ℚ
deriving DecidableEq, Inhabited

/-- `RiskAnalytics.calculate_sharpe_ratio` (risk.py lines 121-185), given the
fetched return series.  `sq` models `np.sqrt` (so `Series.std()` is
`sq (sampleVariance ·)`), keeping the definition executable.
`sharpe = (annual_return - rf) / annual_std if annual_std > 0 else 0`,
and likewise for the Sortino ratio over the downside returns. -/
def calculate_sharpe_core (sq : ℚ → ℚ) (ticker : String) (returns : List ℚ)
    (risk_free_rate : Option ℚ) : Except String SharpeResult :=
  if returns = [] then Except.error ("No data for " ++ ticker)
  else
    let rf := pyOr risk_free_rate RISK_FREE_RATE
    let daily_rf := rf / TRADING_DAYS
    let annual_return := listMean returns * TRADING_DAYS
    let annual_std := sq (sampleVariance returns) * sq TRADING_DAYS
    let sharpe := if 0 < annual_std then (annual_return - rf) / annual_std else 0
    let downside_returns := returns.filter (fun r => r < daily_rf)
    let downside_std := sq (sampleVariance downside_returns) * sq TRADING_DAYS
    let sortino := if 0 < downside_std then (annual_return - rf) / downside_std else 0
    Except.ok
      { sharpe_ratio := pyRound2 sharpe
        sortino_ratio := pyRound2 sortino
        annual_return_percent := pyRound2 (annual_return * 100)
        annual_volatility_percent := pyRound2 (annual_std * 100)
        risk_free_rate_percent := pyRound2 (rf * 100) }

/-- One `ticker1-ticker2` entry of `corr_values` in
`RiskAnalytics.correlation_matrix`. -/
structure CorrPair where
  pair : String
  correlation : ℚ
deriving DecidableEq, Inhabited

/-- The result dictionary of `RiskAnalytics.correlation_matrix`. -/
structure CorrMatrixResult where
  tickers : List String
  matrix : List (List ℚ)
  highest_correlation : Option CorrPair
  lowest_correlation : Option CorrPair
  all_pairs : List CorrPair
deriving DecidableEq, Inhabited

/-- `RiskAnalytics.correlation_matrix` (risk.py lines 419-473).  `fetch`
models `get_returns` (empty list = empty series), `corr` models the pandas
pairwise correlation of two aligned columns.  Tickers whose fetched series
is empty are silently skipped when `returns_dict` is built; dictionary keys
keep the first occurrence of each remaining ticker.  With fewer than two
valid tickers the error names no ticker; otherwise the result covers only
the valid tickers.  `corr_values` holds the upper-triangle pairs sorted by
correlation, descending (Python's stable sort). -/
def correlation_matrix (corr : List ℚ → List ℚ → ℚ) (fetch : String → List ℚ)
    (tickers : List String) : Except String CorrMatrixResult :=
  let valid := (tickers.filter (fun t => fetch t ≠ [])).eraseDups
  if valid.length < 2 then
    Except.error "Need at least 2 valid tickers for correlation"
  else
    let matrix := valid.map (fun t1 => valid.map (fun t2 =>
      pyRoundTo 3 (corr (fetch t1) (fetch t2))))
    let corr_values := (List.range valid.length).flatMap (fun i =>
      (List.range valid.length).filterMap (fun j =>
        if i < j then
          some { pair := valid.getD i "" ++ "-" ++ valid.getD j ""
                 correlation := pyRoundTo 3
                   (corr (fetch (valid.getD i "")) (fetch (valid.getD j ""))) }
        else none))
    let sorted := corr_values.insertionSort
      (fun a b => b.correlation ≤ a.correlation)
    Except.ok
      { tickers := valid
        matrix := matrix
        highest_correlation := sorted.head?
        lowest_correlation := sorted.getLast?
        all_pairs := sorted }

/-- The ticker list of a `correlation_matrix` result (empty on error). -/
def corrTickers (e : Except String CorrMatrixResult) : List String :=
  match e with
  | Except.ok r => r.tickers
  | Except.error _ => []

/-- C5: `calculate_wacc` always yields `equity_weight + debt_weight = 1`
(exactly, hence within every tolerance), with
`equity_weight = marketCap / (marketCap + totalDebt)` when the total is
positive, and in the degenerate case `marketCap + totalDebt = 0` it yields
`equity_weight = 1`, `debt_weight = 0` without dividing by zero. -/
theorem C5_weights_sum_to_one (rf mrp tax : Option ℚ) (inp : WaccInputs) :
    (calculate_wacc rf mrp tax inp).equity_weight
        + (calculate_wacc rf mrp tax inp).debt_weight = 1 ∧
    (pyOr inp.marketCap 0 + pyOr inp.totalDebt 0 > 0 →
      (calculate_wacc rf mrp tax inp).equity_weight
        = pyOr inp.marketCap 0 / (pyOr inp.marketCap 0 + pyOr inp.totalDebt 0)) ∧
    (pyOr inp.marketCap 0 + pyOr inp.totalDebt 0 = 0 →
      (calculate_wacc rf mrp tax inp).equity_weight = 1 ∧
      (calculate_wacc rf mrp tax inp).debt_weight = 0) := by
  unfold calculate_wacc
  dsimp only
  refine ⟨?_, ?_, ?_⟩
  · split_ifs with h
    · have hne : pyOr inp.marketCap 0 + pyOr inp.totalDebt 0 ≠ 0 := ne_of_gt h
      field_simp
    · norm_num
  · intro h
    rw [if_pos h]
  · intro h
    have h' : ¬ pyOr inp.marketCap 0 + pyOr inp.totalDebt 0 > 0 := by
      rw [h]; exact lt_irrefl 0
    rw [if_neg h', if_neg h']
    exact ⟨rfl, rfl⟩

/-- C5 witness: the weight identities at a concrete input (market cap 100,
total debt 50) and at the degenerate input (both zero). -/
theorem C5_weights_sum_to_one_witness :
    (calculate_wacc none none none ⟨some 1, some 100, some 50, none⟩).equity_weight
        + (calculate_wacc none none none ⟨some 1, some 100, some 50, none⟩).debt_weight = 1 ∧
    (calculate_wacc none none none ⟨some 1, none, none, none⟩).equity_weight = 1 ∧
    (calculate_wacc none none none ⟨some 1, none, none, none⟩).debt_weight = 0 := by
  refine ⟨(C5_weights_sum_to_one none none none ⟨some 1, some 100, some 50, none⟩).1, ?_, ?_⟩
  · exact ((C5_weights_sum_to_one none none none ⟨some 1, none, none, none⟩).2.2
      (by simp [pyOr])).1
  · exact ((C5_weights_sum_to_one none none none ⟨some 1, none, none, none⟩).2.2
      (by simp [pyOr])).2

/-- C6 counterexample: with a present-but-zero interest expense
(`'Interest Expense'` row = 0) and total debt 100 > 0, the claim's reading
predicts `cost_of_debt = interestExpense / totalDebt = 0`, but the code
takes the fallback `rf + 0.02 = 0.065`; and with a present negative
interest expense -5 the claim predicts `-5/100`, but the code uses the
absolute value `5/100`. -/
theorem C6_counterexample :
    (WaccInputs.mk (some 1) (some 100) (some 100) (some 0)).interestExpense.isSome = true ∧
    pyOr (WaccInputs.mk (some 1) (some 100) (some 100) (some 0)).totalDebt 0 = 100 ∧
    (calculate_wacc none none none (WaccInputs.mk (some 1) (some 100) (some 100) (some 0))).cost_of_debt
      = 13/200 ∧
    (13/200 : ℚ) ≠ 0 / 100 ∧
    (calculate_wacc none none none (WaccInputs.mk (some 1) (some 100) (some 100) (some (-5)))).cost_of_debt
      = 5/100 ∧
    (5/100 : ℚ) ≠ (-5) / 100 := by
  refine ⟨rfl, by norm_num [pyOr], ?_, by norm_num, ?_, by norm_num⟩
  · norm_num [calculate_wacc, pyOr, waccInterestExpense, RISK_FREE_RATE]
  · norm_num [calculate_wacc, pyOr, waccInterestExpense]

/-- C6 (amended): `calculate_wacc` computes
`cost_of_equity = rf + beta * mrp` with `beta` defaulting to 1.0 when
unavailable (or falsy), `cost_of_debt = |interestExpense| / totalDebt` when
`totalDebt > 0` and the extracted interest expense is nonzero and
`rf + 0.02` otherwise, and
`wacc = equity_weight * cost_of_equity + debt_weight * cost_of_debt * (1 - tax)`. -/
theorem C6_wacc_formulas (rf mrp tax : Option ℚ) (inp : WaccInputs) :
    (calculate_wacc rf mrp tax inp).cost_of_equity
        = pyOr rf RISK_FREE_RATE + pyOr inp.beta 1 * pyOr mrp MARKET_RISK_PREMIUM ∧
    (pyOr inp.totalDebt 0 > 0 ∧ waccInterestExpense inp > 0 →
      (calculate_wacc rf mrp tax inp).cost_of_debt
        = waccInterestExpense inp / pyOr inp.totalDebt 0) ∧
    (¬ (pyOr inp.totalDebt 0 > 0 ∧ waccInterestExpense inp > 0) →
      (calculate_wacc rf mrp tax inp).cost_of_debt = pyOr rf RISK_FREE_RATE + 2/100) ∧
    (calculate_wacc rf mrp tax inp).wacc
        = (calculate_wacc rf mrp tax inp).equity_weight
            * (calculate_wacc rf mrp tax inp).cost_of_equity
          + (calculate_wacc rf mrp tax inp).debt_weight
            * (calculate_wacc rf mrp tax inp).cost_of_debt
            * (1 - pyOr tax DEFAULT_TAX_RATE) := by
  unfold calculate_wacc
  dsimp only
  refine ⟨rfl, ?_, ?_, rfl⟩
  · intro h
    rw [if_pos h]
  · intro h
    rw [if_neg h]

/-- C6 witness: the amended formulas at concrete inputs, one taking the
`interestExpense / totalDebt` branch and one taking the fallback. -/
theorem C6_wacc_formulas_witness :
    (calculate_wacc none none none (WaccInputs.mk (some 2) (some 100) (some 100) (some 5))).cost_of_equity
      = 45/1000 + 2 * (55/1000) ∧
    (calculate_wacc none none none (WaccInputs.mk (some 2) (some 100) (some 100) (some 5))).cost_of_debt
      = 5 / 100 ∧
    (calculate_wacc none none none (WaccInputs.mk (some 2) (some 100) (none) (some 5))).cost_of_debt
      = 45/1000 + 2/100 := by
  refine ⟨?_, ?_, ?_⟩
  · have := (C6_wacc_formulas none none none
      (WaccInputs.mk (some 2) (some 100) (some 100) (some 5))).1
    simpa [pyOr, RISK_FREE_RATE, MARKET_RISK_PREMIUM] using this
  · have := (C6_wacc_formulas none none none
      (WaccInputs.mk (some 2) (some 100) (some 100) (some 5))).2.1
      (by norm_num [pyOr, waccInterestExpense])
    simpa [pyOr, waccInterestExpense] using this
  · have := (C6_wacc_formulas none none none
      (WaccInputs.mk (some 2) (some 100) (none) (some 5))).2.2.1
      (by norm_num [pyOr, waccInterestExpense])
    simpa [pyOr, RISK_FREE_RATE] using this

/-- C10: because defaulting is Python's `or` on falsy values, passing an
explicit `0.0` for `risk_free_rate`, `market_risk_premium` or `tax_rate`
to `calculate_wacc`, or for `wacc_override` to `calculate_dcf`, is
indistinguishable from omitting the argument, and the module default
(4.5%, 5.5%, 21%, or the computed WACC) is used in its place. -/
theorem C10_zero_args_use_defaults :
    (∀ (m t : Option ℚ) (inp : WaccInputs),
      calculate_wacc (some 0) m t inp = calculate_wacc none m t inp ∧
      (calculate_wacc (some 0) m t inp).risk_free_rate = RISK_FREE_RATE) ∧
    (∀ (r t : Option ℚ) (inp : WaccInputs),
      calculate_wacc r (some 0) t inp = calculate_wacc r none t inp ∧
      (calculate_wacc r (some 0) t inp).market_risk_premium = MARKET_RISK_PREMIUM) ∧
    (∀ (r m : Option ℚ) (inp : WaccInputs),
      calculate_wacc r m (some 0) inp = calculate_wacc r m none inp ∧
      (calculate_wacc r m (some 0) inp).tax_rate = DEFAULT_TAX_RATE) ∧
    (∀ (wd : ℚ) (fcfs : List ℚ) (td tc sh p : ℚ) (tg : Option ℚ) (y : ℕ),
      calculate_dcf_core wd (some 0) fcfs td tc sh p tg y
        = calculate_dcf_core wd none fcfs td tc sh p tg y) ∧
    (∀ wd : ℚ, pyOr (some 0) wd = wd) := by
  have h0 : ∀ d : ℚ, pyOr (some 0) d = pyOr none d := by
    intro d; simp [pyOr]
  refine ⟨?_, ?_, ?_, ?_, ?_⟩
  · intro m t inp
    constructor
    · unfold calculate_wacc; rw [h0]
    · unfold calculate_wacc; rw [h0]; rfl
  · intro r t inp
    constructor
    · unfold calculate_wacc; rw [h0]
    · unfold calculate_wacc; rw [h0]; rfl
  · intro r m inp
    constructor
    · unfold calculate_wacc; rw [h0]
    · unfold calculate_wacc; rw [h0]; rfl
  · intro wd fcfs td tc sh p tg y
    unfold calculate_dcf_core; rw [h0]
  · intro wd; simp [pyOr]

/-- C10 witness: with an explicit `0.0` risk-free rate, tax rate and WACC
override at a concrete input, the results coincide with the omitted-argument
calls and the module defaults are used. -/
theorem C10_zero_args_use_defaults_witness :
    calculate_wacc (some 0) none none (WaccInputs.mk (some 1) (some 100) (some 50) none)
      = calculate_wacc none none none (WaccInputs.mk (some 1) (some 100) (some 50) none) ∧
    (calculate_wacc (some 0) none none (WaccInputs.mk (some 1) (some 100) (some 50) none)).risk_free_rate
      = RISK_FREE_RATE ∧
    calculate_dcf_core (93/1000) (some 0) [1000] 0 0 10 50 none 5
      = calculate_dcf_core (93/1000) none [1000] 0 0 10 50 none 5 := by
  refine ⟨?_, ?_, ?_⟩
  · exact (C10_zero_args_use_defaults.1 none none
      (WaccInputs.mk (some 1) (some 100) (some 50) none)).1
  · exact (C10_zero_args_use_defaults.1 none none
      (WaccInputs.mk (some 1) (some 100) (some 50) none)).2
  · exact C10_zero_args_use_defaults.2.2.2.1 (93/1000) [1000] 0 0 10 50 none 5

/-- C2 counterexample: the revenue history `[100, -50]` has only one
positive entry, yet the base CAGR used by `project_financials` for the
default schedule is `0`, not `10%` -- `get_historical_financials` always
sets `"revenue_cagr"` (to `0` here), so the `.get(..., 10)` fallback never
fires. -/
theorem C2_counterexample :
    (([100, -50] : List ℚ).filter (fun r => 0 < r)).length < 2 ∧
    project_base_growth (fun _ _ => 0) [100, -50] ≠ 10/100 ∧
    project_base_growth (fun _ _ => 0) [100, -50] = 0 := by
  have hlen : (([100, -50] : List ℚ).filter (fun r => 0 < r)).length = 1 := by
    norm_num [List.filter]
  have hcagr : revenue_cagr_field (fun _ _ => 0) [100, -50] = 0 := by
    unfold revenue_cagr_field
    rw [if_pos (by norm_num), if_neg (by rw [hlen]; norm_num)]
  refine ⟨by rw [hlen]; norm_num, ?_, ?_⟩
  · unfold project_base_growth project_base_growth_of
    rw [hcagr]
    norm_num
  · unfold project_base_growth project_base_growth_of
    rw [hcagr]
    norm_num

/-- C2 (amended): when the historical data contains fewer than two positive
revenue points, `get_historical_financials` stores `revenue_cagr = 0`, so
the base CAGR used by `project_financials` for the default
declining-growth schedule is `0%` (not `10%`: the `.get("revenue_cagr", 10)`
fallback is unreachable since the key is always set), and the default
schedule collapses to five zero growth rates. -/
theorem C2_cagr_defaults_to_zero (powf : ℚ → ℚ → ℚ) (revenue : List ℚ)
    (h : (revenue.filter (fun r => 0 < r)).length < 2) :
    revenue_cagr_field powf revenue = 0 ∧
    project_base_growth powf revenue = 0 ∧
    default_revenue_growth_rates (project_base_growth powf revenue) 5
      = [0, 0, 0, 0, 0] := by
  have hcagr : revenue_cagr_field powf revenue = 0 := by
    unfold revenue_cagr_field
    by_cases h1 : 2 ≤ revenue.length
    · rw [if_pos h1, if_neg (not_le.mpr h)]
    · rw [if_neg h1]
  have hbase : project_base_growth powf revenue = 0 := by
    unfold project_base_growth project_base_growth_of
    rw [hcagr]
    norm_num
  refine ⟨hcagr, hbase, ?_⟩
  rw [hbase]
  unfold default_revenue_growth_rates
  norm_num

/-- C2 witness: the amended statement at the concrete history `[100, -50]`. -/
theorem C2_cagr_defaults_to_zero_witness :
    revenue_cagr_field (fun _ _ => 1) [100, -50] = 0 ∧
    project_base_growth (fun _ _ => 1) [100, -50] = 0 ∧
    default_revenue_growth_rates (project_base_growth (fun _ _ => 1) [100, -50]) 5
      = [0, 0, 0, 0, 0] :=
  C2_cagr_defaults_to_zero (fun _ _ => 1) [100, -50] (by norm_num [List.filter])

/-- C1 counterexample: with WACC 2% strictly below the 2.5% terminal
growth, `calculate_dcf` does not fail: it silently returns a success
result whose terminal value is negative (here `-205000`). -/
theorem C1_counterexample :
    pyOr none (1/50 : ℚ) ≤ pyOr (some (1/40)) DEFAULT_TERMINAL_GROWTH ∧
    (calculate_dcf_core (1/50) none [1000] 0 0 10 50 (some (1/40)) 5).isOk = true ∧
    (dcfVal (calculate_dcf_core (1/50) none [1000] 0 0 10 50 (some (1/40)) 5)).terminal_value
      < 0 := by
  refine ⟨by norm_num [pyOr, DEFAULT_TERMINAL_GROWTH], ?_, ?_⟩
  all_goals
    norm_num [calculate_dcf_core, pyOr, dcfVal, DEFAULT_TERMINAL_GROWTH, Except.isOk,
      Except.toBool]

/-- C1 (amended): as long as discounting itself is possible
(`1 + WACC ≠ 0`) and the projection is non-empty, `calculate_dcf` returns
an error if and only if the effective WACC is exactly equal to the terminal
growth rate (the `ZeroDivisionError` of the terminal-value formula, caught
and surfaced as an error result).  For WACC strictly below the terminal
growth rate the terminal value is silently computed; there is no domain
check. -/
theorem C1_error_iff_wacc_eq_growth (wd : ℚ) (ov tg : Option ℚ) (fcfs : List ℚ)
    (td tc sh p : ℚ) (y : ℕ) (hne : fcfs ≠ []) (hw : 1 + pyOr ov wd ≠ 0) :
    ((calculate_dcf_core wd ov fcfs td tc sh p tg y).isOk = false
      ↔ pyOr ov wd = pyOr tg DEFAULT_TERMINAL_GROWTH) := by
  unfold calculate_dcf_core
  rw [if_neg (by intro hc; exact hw hc.2)]
  obtain ⟨f, hf⟩ : ∃ f, fcfs.getLast? = some f := by
    cases hl : fcfs.getLast? with
    | none => exact absurd (List.getLast?_eq_none_iff.mp hl) hne
    | some f => exact ⟨f, rfl⟩
  rw [hf]
  dsimp only
  by_cases hz : pyOr ov wd - pyOr tg DEFAULT_TERMINAL_GROWTH = 0
  · rw [if_pos hz]
    simpa [Except.isOk, Except.toBool] using sub_eq_zero.mp hz
  · rw [if_neg hz]
    simpa [Except.isOk, Except.toBool] using fun h => hz (sub_eq_zero.mpr h)

/-- C1 witness: at WACC = terminal growth = 2.5% the call errors out, per
the amended equivalence. -/
theorem C1_error_iff_wacc_eq_growth_witness :
    ((calculate_dcf_core (1/40) none [1000] 0 0 10 50 (some (1/40)) 5).isOk = false
      ↔ pyOr none (1/40 : ℚ) = pyOr (some (1/40)) DEFAULT_TERMINAL_GROWTH) :=
  C1_error_iff_wacc_eq_growth (1/40) none (some (1/40)) [1000] 0 0 10 50 5
    (by simp) (by norm_num [pyOr])

/-- C4: whenever `calculate_dcf` succeeds, its valuation satisfies the
accounting identities exactly: enterprise value = PV of FCFs + PV of
terminal value; equity value = enterprise value - net debt; per-share
value = equity value / shares outstanding when shares are positive and `0`
when they are zero; and the verdict is UNDERVALUED when upside > 10%,
OVERVALUED when upside < -10%, FAIRLY VALUED otherwise. -/
theorem C4_valuation_identities (wd : ℚ) (ov : Option ℚ) (fcfs : List ℚ)
    (td tc sh p : ℚ) (tg : Option ℚ) (y : ℕ)
    (h : (calculate_dcf_core wd ov fcfs td tc sh p tg y).isOk = true) :
    (dcfVal (calculate_dcf_core wd ov fcfs td tc sh p tg y)).enterprise_value
        = (dcfVal (calculate_dcf_core wd ov fcfs td tc sh p tg y)).pv_of_fcfs
          + (dcfVal (calculate_dcf_core wd ov fcfs td tc sh p tg y)).pv_of_terminal_value ∧
    (dcfVal (calculate_dcf_core wd ov fcfs td tc sh p tg y)).equity_value
        = (dcfVal (calculate_dcf_core wd ov fcfs td tc sh p tg y)).enterprise_value
          - (dcfVal (calculate_dcf_core wd ov fcfs td tc sh p tg y)).net_debt ∧
    ((dcfVal (calculate_dcf_core wd ov fcfs td tc sh p tg y)).shares_outstanding > 0 →
      (dcfVal (calculate_dcf_core wd ov fcfs td tc sh p tg y)).intrinsic_value_per_share
        = (dcfVal (calculate_dcf_core wd ov fcfs td tc sh p tg y)).equity_value
          / (dcfVal (calculate_dcf_core wd ov fcfs td tc sh p tg y)).shares_outstanding) ∧
    ((dcfVal (calculate_dcf_core wd ov fcfs td tc sh p tg y)).shares_outstanding = 0 →
      (dcfVal (calculate_dcf_core wd ov fcfs td tc sh p tg y)).intrinsic_value_per_share = 0) ∧
    (dcfVal (calculate_dcf_core wd ov fcfs td tc sh p tg y)).valuation_status
        = (if (dcfVal (calculate_dcf_core wd ov fcfs td tc sh p tg y)).upside_percent > 10
            then "UNDERVALUED"
          else if (dcfVal (calculate_dcf_core wd ov fcfs td tc sh p tg y)).upside_percent < -10
            then "OVERVALUED"
          else "FAIRLY VALUED") := by
  by_cases hc : fcfs ≠ [] ∧ 1 + pyOr ov wd = 0
  · rw [calculate_dcf_core, if_pos hc] at h
    simp [Except.isOk, Except.toBool] at h
  · rw [calculate_dcf_core, if_neg hc] at h ⊢
    cases hl : fcfs.getLast? with
    | none =>
      rw [hl] at h
      simp [Except.isOk, Except.toBool] at h
    | some f =>
      rw [hl] at h
      dsimp only at h ⊢
      by_cases hz : pyOr ov wd - pyOr tg DEFAULT_TERMINAL_GROWTH = 0
      · rw [if_pos hz] at h
        simp [Except.isOk, Except.toBool] at h
      · rw [if_neg hz] at h ⊢
        dsimp only [dcfVal]
        refine ⟨rfl, rfl, ?_, ?_, rfl⟩
        · intro hsh
          exact if_pos hsh
        · intro hsh
          exact if_neg (by rw [hsh]; exact lt_irrefl 0)

/-- C4 witness: the identities at a concrete successful valuation
(WACC 10%, terminal growth 5%, one projected cash flow of 110). -/
theorem C4_valuation_identities_witness :
    (dcfVal (calculate_dcf_core (1/10) none [110] 100 50 10 5 (some (1/20)) 1)).enterprise_value
        = (dcfVal (calculate_dcf_core (1/10) none [110] 100 50 10 5 (some (1/20)) 1)).pv_of_fcfs
          + (dcfVal (calculate_dcf_core (1/10) none [110] 100 50 10 5 (some (1/20)) 1)).pv_of_terminal_value ∧
    (dcfVal (calculate_dcf_core (1/10) none [110] 100 50 10 5 (some (1/20)) 1)).equity_value
        = (dcfVal (calculate_dcf_core (1/10) none [110] 100 50 10 5 (some (1/20)) 1)).enterprise_value
          - (dcfVal (calculate_dcf_core (1/10) none [110] 100 50 10 5 (some (1/20)) 1)).net_debt ∧
    ((dcfVal (calculate_dcf_core (1/10) none [110] 100 50 10 5 (some (1/20)) 1)).shares_outstanding > 0 →
      (dcfVal (calculate_dcf_core (1/10) none [110] 100 50 10 5 (some (1/20)) 1)).intrinsic_value_per_share
        = (dcfVal (calculate_dcf_core (1/10) none [110] 100 50 10 5 (some (1/20)) 1)).equity_value
          / (dcfVal (calculate_dcf_core (1/10) none [110] 100 50 10 5 (some (1/20)) 1)).shares_outstanding) ∧
    ((dcfVal (calculate_dcf_core (1/10) none [110] 100 50 10 5 (some (1/20)) 1)).shares_outstanding = 0 →
      (dcfVal (calculate_dcf_core (1/10) none [110] 100 50 10 5 (some (1/20)) 1)).intrinsic_value_per_share = 0) ∧
    (dcfVal (calculate_dcf_core (1/10) none [110] 100 50 10 5 (some (1/20)) 1)).valuation_status
        = (if (dcfVal (calculate_dcf_core (1/10) none [110] 100 50 10 5 (some (1/20)) 1)).upside_percent > 10
            then "UNDERVALUED"
          else if (dcfVal (calculate_dcf_core (1/10) none [110] 100 50 10 5 (some (1/20)) 1)).upside_percent < -10
            then "OVERVALUED"
          else "FAIRLY VALUED") :=
  C4_valuation_identities (1/10) none [110] 100 50 10 5 (some (1/20)) 1
    (by norm_num [calculate_dcf_core, pyOr, DEFAULT_TERMINAL_GROWTH, Except.isOk, Except.toBool])

/-- `np.linspace` always yields exactly `steps` samples. -/
theorem linspace_length (a b : ℚ) (steps : ℕ) : (linspace a b steps).length = steps := by
  unfold linspace
  split_ifs with h0 h1
  · simp [h0]
  · simp [h1]
  · rw [List.length_map, List.length_range]

/-- C7: `sensitivity_analysis` always produces the full `steps × steps`
grid: every cell is the defined number `sensitivity_cell` of the single
cached projection at the linspace coordinates, and a cell whose WACC is
less than or equal to its terminal growth is computed with the sentinel
PV-of-terminal-value `0` instead of an error. -/
theorem C7_sensitivity_full_grid (fcfs : List ℚ) (nd sh a b c d : ℚ) (steps : ℕ) :
    (sensitivity_matrix fcfs nd sh a b c d steps).length = steps ∧
    (∀ row ∈ sensitivity_matrix fcfs nd sh a b c d steps, row.length = steps) ∧
    (∀ i j : ℕ, i < steps → j < steps →
      ((sensitivity_matrix fcfs nd sh a b c d steps).getD i []).getD j 0
        = sensitivity_cell fcfs nd sh ((linspace a b steps).getD i 0)
            ((linspace c d steps).getD j 0)) ∧
    (∀ w g : ℚ, w ≤ g →
      sensitivity_cell fcfs nd sh w g
        = pyRound2 (if sh ≠ 0 then ((pvList w 0 fcfs).sum + 0 - nd) / sh else 0)) := by
  refine ⟨?_, ?_, ?_, ?_⟩
  · rw [sensitivity_matrix, List.length_map, linspace_length]
  · intro row hrow
    rw [sensitivity_matrix] at hrow
    obtain ⟨w, _, hweq⟩ := List.mem_map.mp hrow
    rw [← hweq, List.length_map, linspace_length]
  · intro i j hi hj
    have hi' : i < (linspace a b steps).length := by rw [linspace_length]; exact hi
    have hj' : j < (linspace c d steps).length := by rw [linspace_length]; exact hj
    rw [sensitivity_matrix]
    have hmi : i < (List.map (fun wacc => List.map
        (fun growth => sensitivity_cell fcfs nd sh wacc growth) (linspace c d steps))
        (linspace a b steps)).length := by
      rw [List.length_map]; exact hi'
    have hmj : j < (List.map
        (fun growth => sensitivity_cell fcfs nd sh ((linspace a b steps)[i]) growth)
        (linspace c d steps)).length := by
      rw [List.length_map]; exact hj'
    rw [List.getD_eq_getElem _ _ hmi, List.getElem_map]
    rw [List.getD_eq_getElem _ _ hmj, List.getElem_map]
    rw [List.getD_eq_getElem _ _ hi', List.getD_eq_getElem _ _ hj']
  · intro w g hwg
    simp only [sensitivity_cell]
    rw [if_neg (not_lt.mpr hwg)]

/-- C7 witness: the grid properties at a concrete 3×3 run, including a
cell with WACC 1% below growth 2% taking the sentinel. -/
theorem C7_sensitivity_full_grid_witness :
    (sensitivity_matrix [100] 10 5 (8/100) (14/100) (15/1000) (4/100) 3).length = 3 ∧
    ((sensitivity_matrix [100] 10 5 (8/100) (14/100) (15/1000) (4/100) 3).getD 0 []).getD 1 0
      = sensitivity_cell [100] 10 5 ((linspace (8/100) (14/100) 3).getD 0 0)
          ((linspace (15/1000) (4/100) 3).getD 1 0) ∧
    sensitivity_cell [100] 10 5 (1/100) (2/100)
      = pyRound2 (if (5:ℚ) ≠ 0 then ((pvList (1/100) 0 [100]).sum + 0 - 10) / 5 else 0) :=
  ⟨(C7_sensitivity_full_grid [100] 10 5 (8/100) (14/100) (15/1000) (4/100) 3).1,
   (C7_sensitivity_full_grid [100] 10 5 (8/100) (14/100) (15/1000) (4/100) 3).2.2.1
     0 1 (by norm_num) (by norm_num),
   (C7_sensitivity_full_grid [100] 10 5 (8/100) (14/100) (15/1000) (4/100) 3).2.2.2
     (1/100) (2/100) (by norm_num)⟩

/-- A constant (flat) price series has identically zero daily returns. -/
theorem pctChange_const (c : ℚ) (hc : c ≠ 0) (n : ℕ) :
    pctChange (List.replicate n c) = List.replicate (n - 1) 0 := by
  cases n with
  | zero => rfl
  | succ m =>
    unfold pctChange
    have ht : (List.replicate (m + 1) c).tail = List.replicate m c := by
      rw [List.replicate_succ, List.tail_cons]
    rw [ht, List.zip_replicate, List.map_replicate]
    have hmin : min (m + 1) m = m := by omega
    rw [hmin, div_self hc]
    norm_num

/-- The sample variance of an identically zero series is zero. -/
theorem sampleVariance_replicate_zero (n : ℕ) :
    sampleVariance (List.replicate n 0) = 0 := by
  unfold sampleVariance listMean
  split_ifs with h
  · simp [List.map_replicate, List.sum_replicate]
  · rfl

/-- C9: on the flat price series of 100 days at $100 the return series has
zero volatility, and `calculate_sharpe_ratio` returns the defined sentinel
`0` for the Sharpe ratio (the guard `annual_std > 0` catches the zero
denominator; nothing is divided by zero, no exception escapes). -/
theorem C9_flat_series_sharpe_is_zero (sq : ℚ → ℚ) (ticker : String) (rf : Option ℚ)
    (hsq : sq 0 = 0) :
    (calculate_sharpe_core sq ticker (pctChange (List.replicate 100 100)) rf).toOption.map
      SharpeResult.sharpe_ratio = some (0 : ℚ) := by
  have hret : pctChange (List.replicate 100 100) = List.replicate 99 0 := by
    rw [pctChange_const 100 (by norm_num) 100]
  rw [hret]
  unfold calculate_sharpe_core
  rw [if_neg (by simp)]
  dsimp only
  rw [sampleVariance_replicate_zero, hsq, zero_mul]
  rw [if_neg (lt_irrefl 0)]
  simp only [Except.toOption, Option.map_some']
  norm_num [pyRound2, pyRoundTo, pyRoundInt]

/-- C9 witness: the flat-series Sharpe sentinel with `np.sqrt` instantiated
by any function sending `0` to `0` (here the identity). -/
theorem C9_flat_series_sharpe_is_zero_witness :
    (calculate_sharpe_core id "AAPL" (pctChange (List.replicate 100 100)) none).toOption.map
      SharpeResult.sharpe_ratio = some (0 : ℚ) :=
  C9_flat_series_sharpe_is_zero id "AAPL" none rfl

/-- C3 counterexample: with tickers `["A", "B", "C"]` where only `"C"`'s
fetch is empty, `correlation_matrix` returns a success over the remaining
tickers `["A", "B"]` -- a partial result, contradicting the claim that a
failing ticker makes the whole call an error. -/
theorem C3_counterexample :
    ((fun t => if t = "C" then ([] : List ℚ) else [1/100, 2/100]) "C" = []) ∧
    (correlation_matrix (fun _ _ => 0)
      (fun t => if t = "C" then ([] : List ℚ) else [1/100, 2/100])
      ["A", "B", "C"]).isOk = true ∧
    corrTickers (correlation_matrix (fun _ _ => 0)
      (fun t => if t = "C" then ([] : List ℚ) else [1/100, 2/100])
      ["A", "B", "C"]) = ["A", "B"] := by
  refine ⟨rfl, ?_, ?_⟩ <;> decide

/-- C3 (amended): `calculate_var` (like the other single-series risk
functions) reports an empty fetched series as an explicit error object
naming the ticker; `correlation_matrix`, however, silently drops tickers
whose series is empty: with at least two valid tickers left it returns a
partial result covering exactly the remaining tickers, and with fewer it
returns an error that names no ticker. -/
theorem C3_empty_fetch_error_and_partial_matrix (corr : List ℚ → List ℚ → ℚ)
    (fetch : String → List ℚ) (tickers : List String) (ticker : String)
    (price conf s : ℚ) :
    calculate_var_historical ticker [] price conf s
      = Except.error ("No data for " ++ ticker) ∧
    (∀ r, correlation_matrix corr fetch tickers = Except.ok r →
      r.tickers = (tickers.filter (fun t => fetch t ≠ [])).eraseDups) ∧
    (((tickers.filter (fun t => fetch t ≠ [])).eraseDups).length < 2 →
      correlation_matrix corr fetch tickers
        = Except.error "Need at least 2 valid tickers for correlation") := by
  refine ⟨rfl, ?_, ?_⟩
  · intro r hr
    unfold correlation_matrix at hr
    by_cases hlen : ((tickers.filter (fun t => fetch t ≠ [])).eraseDups).length < 2
    · rw [if_pos hlen] at hr
      exact absurd hr (by simp)
    · rw [if_neg hlen] at hr
      cases Except.ok.inj hr
      rfl
  · intro hlen
    unfold correlation_matrix
    rw [if_pos hlen]

/-- C3 witness: the error forms at concrete inputs -- an empty VaR series
for TSLA, and a correlation call where every fetch is empty. -/
theorem C3_empty_fetch_error_and_partial_matrix_witness :
    calculate_var_historical "TSLA" [] 100 (19/20) 1
      = Except.error ("No data for " ++ "TSLA") ∧
    correlation_matrix (fun _ _ => 0) (fun _ => ([] : List ℚ)) ["A", "B", "C"]
      = Except.error "Need at least 2 valid tickers for correlation" :=
  ⟨(C3_empty_fetch_error_and_partial_matrix (fun _ _ => 0) (fun _ => [])
      ["A", "B", "C"] "TSLA" 100 (19/20) 1).1,
   (C3_empty_fetch_error_and_partial_matrix (fun _ _ => 0) (fun _ => [])
      ["A", "B", "C"] "TSLA" 100 (19/20) 1).2.2 (by decide)⟩

/-- The mean of a non-empty series bounded above by `c` is at most `c`. -/
theorem listMean_le_of_forall_le {l : List ℚ} {c : ℚ} (hne : l ≠ [])
    (h : ∀ x ∈ l, x ≤ c) : listMean l ≤ c := by
  unfold listMean
  have hpos : 0 < (l.length : ℚ) := by
    exact_mod_cast List.length_pos.mpr hne
  rw [div_le_iff₀ hpos]
  calc l.sum ≤ l.length • c := List.sum_le_card_nsmul l c h
    _ = (l.length : ℚ) * c := nsmul_eq_mul _ _
    _ = c * l.length := mul_comm _ _

/-- For `0 ≤ q ≤ 100` the linear-interpolation percentile of a non-empty
series is at least its minimum: some element lies at or below it. -/
theorem exists_mem_le_np_percentile {l : List ℚ} (hne : l ≠ []) {q : ℚ}
    (h0 : 0 ≤ q) (h100 : q ≤ 100) :
    ∃ x ∈ l, x ≤ np_percentile l q := by
  simp only [np_percentile]
  set s := l.insertionSort (· ≤ ·) with hs
  have hsort : s.Sorted (· ≤ ·) := List.sorted_insertionSort (· ≤ ·) l
  have hperm : s.Perm l := List.perm_insertionSort (· ≤ ·) l
  have hsne : s ≠ [] := by
    intro hnil
    rw [hnil] at hperm
    exact hne hperm.symm.eq_nil
  have hn1 : 1 ≤ s.length := List.length_pos.mpr hsne
  have hn1q : (1 : ℚ) ≤ (s.length : ℚ) := by exact_mod_cast hn1
  set hq : ℚ := ((s.length : ℚ) - 1) * q / 100 with hhq
  have hq0 : 0 ≤ hq := by
    apply div_nonneg _ (by norm_num)
    exact mul_nonneg (by linarith) h0
  have hqle : hq ≤ (s.length : ℚ) - 1 := by
    rw [hhq, div_le_iff₀ (by norm_num : (0:ℚ) < 100)]
    nlinarith
  set i := (Int.floor hq).toNat with hi
  have hfl0 : (0 : ℤ) ≤ Int.floor hq := Int.floor_nonneg.mpr hq0
  have hicast : (i : ℚ) = ((Int.floor hq : ℤ) : ℚ) := by
    rw [hi]
    exact_mod_cast congrArg (fun z : ℤ => (z : ℚ)) (Int.toNat_of_nonneg hfl0)
  have hile : (i : ℚ) ≤ hq := by
    rw [hicast]
    exact Int.floor_le hq
  have hfrac0 : 0 ≤ hq - (i : ℚ) := by linarith
  have hilt : i < s.length := by
    have hq1 : (i : ℚ) < (s.length : ℚ) := by linarith
    exact_mod_cast hq1
  have hlo : s.getD i 0 = s.get ⟨i, hilt⟩ := by
    rw [List.getD_eq_getElem _ _ hilt]
    rfl
  have h0lt : 0 < s.length := hn1
  have hhead_le : s.get ⟨0, h0lt⟩ ≤ s.get ⟨i, hilt⟩ :=
    hsort.rel_get_of_le (by exact Fin.mk_le_mk.mpr (Nat.zero_le i))
  have hhi_ge : s.getD i 0 ≤ s.getD (i + 1) (s.getD i 0) := by
    by_cases hi1 : i + 1 < s.length
    · rw [List.getD_eq_getElem _ _ hi1, hlo]
      exact hsort.rel_get_of_le (by exact Fin.mk_le_mk.mpr (Nat.le_succ i))
    · rw [List.getD_eq_default _ _ (Nat.le_of_not_lt hi1)]
  refine ⟨s.get ⟨0, h0lt⟩, hperm.subset (List.get_mem s 0 h0lt), ?_⟩
  have hmul : 0 ≤ (hq - (i : ℚ)) * (s.getD (i + 1) (s.getD i 0) - s.getD i 0) :=
    mul_nonneg hfrac0 (by linarith)
  have : s.get ⟨0, h0lt⟩ ≤ s.getD i 0 := by rw [hlo]; exact hhead_le
  linarith

/-- C8 counterexample: for the all-positive return series
`[1%, 2%, 3%]` at 95% confidence, the historical VaR percentile is
`0.011` while the CVaR (mean of returns at or below it) is `0.01`, so the
CVaR magnitude is strictly smaller than the VaR magnitude. -/
theorem C8_counterexample :
    ([1/100, 2/100, 3/100] : List ℚ) ≠ [] ∧
    |cvar_pct [1/100, 2/100, 3/100] (19/20)|
      < |historical_var_pct [1/100, 2/100, 3/100] (19/20)| := by
  have h1 : historical_var_pct [1/100, 2/100, 3/100] (19/20) = 11/1000 := by
    norm_num [historical_var_pct, np_percentile, List.insertionSort,
      List.orderedInsert, List.getD, List.getElem?_cons_zero, List.getElem?_cons_succ]
  have h2 : cvar_pct [1/100, 2/100, 3/100] (19/20) = 1/100 := by
    unfold cvar_pct
    rw [h1]
    norm_num [listMean, List.filter]
  refine ⟨by simp, ?_⟩
  rw [h1, h2, abs_of_nonneg (by norm_num : (0:ℚ) ≤ 1/100),
    abs_of_nonneg (by norm_num : (0:ℚ) ≤ 11/1000)]
  norm_num

/-- C8 (amended): whenever the historical VaR percentile is a loss
(non-positive), the CVaR magnitude is at least the VaR magnitude -- the
mean of the returns at or below the percentile is at least as large a loss
as the percentile itself.  (For all-positive return series the relation
can reverse, per the counterexample.) -/
theorem C8_cvar_at_least_var_on_losses (returns : List ℚ) (confidence : ℚ)
    (hne : returns ≠ []) (h0 : 0 ≤ confidence) (h1 : confidence ≤ 1)
    (hv : historical_var_pct returns confidence ≤ 0) :
    |historical_var_pct returns confidence| ≤ |cvar_pct returns confidence| := by
  obtain ⟨x, hxmem, hxle⟩ := exists_mem_le_np_percentile hne
    (q := (1 - confidence) * 100) (by nlinarith) (by nlinarith)
  have hxle' : x ≤ historical_var_pct returns confidence := hxle
  have hfil : returns.filter
      (fun r => r ≤ historical_var_pct returns confidence) ≠ [] := by
    intro hnil
    have hx : x ∈ returns.filter
        (fun r => r ≤ historical_var_pct returns confidence) :=
      List.mem_filter.mpr ⟨hxmem, by simpa using hxle'⟩
    rw [hnil] at hx
    exact List.not_mem_nil x hx
  have hall : ∀ y ∈ returns.filter
      (fun r => r ≤ historical_var_pct returns confidence),
      y ≤ historical_var_pct returns confidence := by
    intro y hy
    simpa using (List.mem_filter.mp hy).2
  have hcv : cvar_pct returns confidence ≤ historical_var_pct returns confidence :=
    listMean_le_of_forall_le hfil hall
  have hcv0 : cvar_pct returns confidence ≤ 0 := le_trans hcv hv
  rw [abs_of_nonpos hv, abs_of_nonpos hcv0]
  linarith

/-- C8 witness: a concrete loss-bearing series `[-10%, 1%, 2%]` at 95%
confidence, where the VaR percentile is `-0.089 ≤ 0` and the bound holds. -/
theorem C8_cvar_at_least_var_on_losses_witness :
    |historical_var_pct [-1/10, 1/100, 2/100] (19/20)|
      ≤ |cvar_pct [-1/10, 1/100, 2/100] (19/20)| :=
  C8_cvar_at_least_var_on_losses [-1/10, 1/100, 2/100] (19/20)
    (by simp) (by norm_num) (by norm_num)
    (by norm_num [historical_var_pct, np_percentile, List.insertionSort,
      List.orderedInsert, List.getD, List.getElem?_cons_zero, List.getElem?_cons_succ])

end Aurelius
